import Mathlib

/-!
Shallow embedding of the playlist-librarian repository
(src/utils.py, src/src/spotify/spotify_client.py, src/src/spotify/server.py)
and proofs about the frozen specification claims.

Conventions:
* Python strings are Lean `String`s; regex work is done on `List Char`.
* Python exceptions become `Except` errors; each error constructor is named
  after the Python exception class it embeds.
* The spotipy client is abstracted as a record of upstream calls
  (`SpotifyApi`), each of which may fail like the Python call may raise.
* Stateful tool handlers additionally return the list of upstream calls they
  issued, so that claims of the form "fails before any upstream call" are
  expressible.
-/

namespace PlaylistLibrarian

/-! Embedding of src/utils.py (extract_playlist_id). -/

/-- The characters Python str.strip() removes and str.isspace() accepts:
ASCII whitespace, the information separators U+001C-U+001F, NEL U+0085,
NBSP U+00A0, Ogham space U+1680, the Zs spaces U+2000-U+200A, the line and
paragraph separators U+2028/U+2029, U+202F, U+205F and the ideographic
space U+3000. -/
def pyWhitespace : List Char :=
  ['\t', '\n', Char.ofNat 11, Char.ofNat 12, '\r',
   Char.ofNat 28, Char.ofNat 29, Char.ofNat 30, Char.ofNat 31, ' ',
   Char.ofNat 133, Char.ofNat 160, Char.ofNat 5760,
   Char.ofNat 8192, Char.ofNat 8193, Char.ofNat 8194, Char.ofNat 8195,
   Char.ofNat 8196, Char.ofNat 8197, Char.ofNat 8198, Char.ofNat 8199,
   Char.ofNat 8200, Char.ofNat 8201, Char.ofNat 8202,
   Char.ofNat 8232, Char.ofNat 8233, Char.ofNat 8239, Char.ofNat 8287,
   Char.ofNat 12288]

/-- Python whitespace test, as used by str.strip() (so by the trimming in
extract_playlist_id) and by `not track_id.strip()` in get_track_details. -/
def isPySpace (c : Char) : Bool := decide (c ∈ pyWhitespace)

/-- Character class [a-zA-Z0-9] of the regexes in extract_playlist_id. -/
def isAlnum (c : Char) : Bool :=
  (('a' ≤ c) && (c ≤ 'z')) || (('A' ≤ c) && (c ≤ 'Z')) || (('0' ≤ c) && (c ≤ '9'))

/-- Embedding of Python str.strip(): drop whitespace from both ends. -/
def stripChars (l : List Char) : List Char :=
  ((l.dropWhile isPySpace).reverse.dropWhile isPySpace).reverse

/-- Matching the regex fragment [a-zA-Z0-9]\x7b22\x7d at the current position:
succeeds exactly when at least 22 characters remain and the first 22 are
alphanumeric, capturing those 22 characters. -/
def grab22 (s : List Char) : Option (List Char) :=
  if (s.take 22).length == 22 && (s.take 22).all isAlnum then some (s.take 22) else none

/-- One regex match attempt at the current position: the literal `lit`
followed by 22 alphanumeric characters (the capture group). -/
def hitPat (lit s : List Char) : Option (List Char) :=
  if lit.isPrefixOf s then grab22 (s.drop lit.length) else none

/-- Embedding of re.search for the patterns of extract_playlist_id: try a
match attempt at every position, left to right, returning the capture of the
leftmost successful attempt. -/
def searchPat (lit : List Char) : List Char → Option (List Char)
  | [] => none
  | c :: rest =>
    match hitPat lit (c :: rest) with
    | some r => some r
    | none => searchPat lit rest

/-- Literal part of the https_pattern regex in extract_playlist_id. -/
def httpsLit : List Char := "https://open.spotify.com/playlist/".toList

/-- Literal part of the uri_pattern regex in extract_playlist_id. -/
def uriLit : List Char := "spotify:playlist:".toList

/-- Embedding of the SpotifyURLError exception raised by extract_playlist_id. -/
inductive ExtractErr where
  | spotifyURLError (msg : String)
deriving DecidableEq

/-- A single-quote character, as a string. -/
def sq : String := String.singleton (Char.ofNat 39)

/-- The message of the final SpotifyURLError of extract_playlist_id: echoes
the original (untrimmed) input between single quotes and enumerates the
supported formats. -/
def invalidFormatMsg (original : String) : String :=
  "Invalid Spotify playlist URL or ID format: " ++ sq ++ original ++ sq ++
    ". Supported formats: HTTPS URL, Spotify URI, or raw playlist ID."

/-- Body of extract_playlist_id after the strip: the raw-ID regex anchored
on the stripped characters s, then unanchored search for the https pattern
and then the uri pattern; otherwise SpotifyURLError echoing the original
(untrimmed) input. -/
def extractCore (original : String) (s : List Char) : Except ExtractErr String :=
  if s.length == 22 && s.all isAlnum then
    .ok (String.mk s)
  else
    match searchPat httpsLit s with
    | some r => .ok (String.mk r)
    | none =>
      match searchPat uriLit s with
      | some r => .ok (String.mk r)
      | none => .error (.spotifyURLError (invalidFormatMsg original))

/-- Embedding of utils.extract_playlist_id: non-empty check, strip, then the
three pattern attempts in order. -/
def extract_playlist_id (playlist_url_or_id : String) : Except ExtractErr String :=
  if playlist_url_or_id.toList = [] then
    .error (.spotifyURLError "playlist_url_or_id must be a non-empty string")
  else
    extractCore playlist_url_or_id (stripChars playlist_url_or_id.toList)

/-- The https literal without its first character. -/
def httpsTail : List Char := "ttps://open.spotify.com/playlist/".toList

/-- An input embedding a uri-scheme form (at position 0) before a web-URL
form: the first embedded 22-character id is the one of a's. -/
def c10Mixed : String :=
  "spotify:playlist:aaaaaaaaaaaaaaaaaaaaaa https://open.spotify.com/playlist/bbbbbbbbbbbbbbbbbbbbbb"

/-! Raw Spotify API data, as read by server.py from the upstream JSON.
Optional / possibly-empty JSON string fields are Lean Strings with "" for the
Python falsy values (absent or empty). A JSON null object is an Option none. -/

/-- One entry of an images list; the code reads images[0]['url']. -/
structure RawImage where
  url : String
deriving DecidableEq

/-- The artist object embedded in a track, fields read by server.py. -/
structure RawArtist where
  id : String
  uri : String
  name : String
deriving DecidableEq

/-- The album object embedded in a track, fields read by server.py. -/
structure RawAlbum where
  id : String
  uri : String
  name : String
  album_type : String
  images : List RawImage
  release_date : String
  release_date_precision : String
deriving DecidableEq

/-- A track object, fields read by server.py (fetch_playlist reads uri;
get_track_details reads the rest). -/
structure RawTrack where
  uri : String
  name : String
  duration_ms : Nat
  album : RawAlbum
  artists : List RawArtist
deriving DecidableEq

/-- One item of a playlist_tracks response; item['track'] may be JSON null. -/
structure PlaylistItem where
  track : Option RawTrack
deriving DecidableEq

/-- Response of client.playlist_tracks, field read by server.py. -/
structure PlaylistTracksResp where
  items : List PlaylistItem
deriving DecidableEq

/-- Response of client.tracks; entries may be JSON null. -/
structure TracksResp where
  tracks : List (Option RawTrack)
deriving DecidableEq

/-- A full artist object from client.artists, fields read by server.py. -/
structure RawArtistFull where
  id : String
  images : List RawImage
  genres : List String
deriving DecidableEq

/-- Response of client.artists; entries may be JSON null. -/
structure ArtistsResp where
  artists : List (Option RawArtistFull)
deriving DecidableEq

/-- A full album object from client.albums, fields read by server.py. -/
structure RawAlbumFull where
  id : String
  label : String
  copyrights : List String
deriving DecidableEq

/-- Response of client.albums; entries may be JSON null. -/
structure AlbumsResp where
  albums : List (Option RawAlbumFull)
deriving DecidableEq

/-- An upstream failure raised by a spotipy client call: either a
SpotifyClientError (caught by the dedicated except clause in server.py) or
any other exception such as spotipy's SpotifyException (caught by the
generic except clause). -/
inductive UpErr where
  | clientErr (msg : String)
  | exc (msg : String)
deriving DecidableEq

/-- The authenticated spotipy client, abstracted as the four upstream read
operations server.py uses, each of which may raise. -/
structure SpotifyApi where
  playlist_tracks : String → Except UpErr PlaylistTracksResp
  tracks : List String → Except UpErr TracksResp
  artists : List String → Except UpErr ArtistsResp
  albums : List String → Except UpErr AlbumsResp

/-! Embedding of src/src/spotify/spotify_client.py (SpotifyClientManager). -/

/-- Embedding of SpotifyClientManager: the two credential strings and the
optional _spotify_client session handle. -/
structure SpotifyClientManager where
  client_id : String
  client_secret : String
  spotify_client : Option SpotifyApi

/-- Outcome of one authentication attempt against the external service:
either the client objects are constructed successfully, or a SpotifyException
is raised, or some other exception is raised. The embedding is total over
the three outcomes because SpotifyClientManager.authenticate catches them
all and never raises past its boundary. -/
inductive AuthAttempt where
  | success (api : SpotifyApi)
  | sdkError (msg : String)
  | unexpected (msg : String)

/-- Embedding of SpotifyClientManager.__init__: raises SpotifyClientError on
an empty client_id or client_secret, else stores the credentials with no
session handle. -/
def SpotifyClientManager.construct (client_id client_secret : String) :
    Except String SpotifyClientManager :=
  if client_id = "" then .error "client_id must be a non-empty string"
  else if client_secret = "" then .error "client_secret must be a non-empty string"
  else .ok ⟨client_id, client_secret, none⟩

/-- Embedding of SpotifyClientManager.authenticate: on success stores the
live client and returns True; on SpotifyException or any other exception
sets _spotify_client to None and returns False. Totality over AuthAttempt
encodes that the method never raises past its boundary. -/
def authenticate (m : SpotifyClientManager) (att : AuthAttempt) :
    Bool × SpotifyClientManager :=
  match att with
  | .success api => (true, { m with spotify_client := some api })
  | .sdkError _ => (false, { m with spotify_client := none })
  | .unexpected _ => (false, { m with spotify_client := none })

/-- Message of the SpotifyClientError raised by get_client (and
test_connection) when there is no session handle. -/
def notAuthMsg : String :=
  "Spotify client is not authenticated. Call authenticate() first."

/-- Embedding of SpotifyClientManager.get_client: raises SpotifyClientError
(the error branch, carrying the message) when _spotify_client is None,
otherwise returns the client. -/
def get_client (m : SpotifyClientManager) : Except String SpotifyApi :=
  match m.spotify_client with
  | none => .error notAuthMsg
  | some c => .ok c

/-! Embedding of src/src/spotify/server.py (the tool dispatch layer). -/

/-- The names of the operations registered on the FastMCP server in
server.py, in source order: exactly the two functions carrying the
mcp.tool() decorator. -/
def mcpToolNames : List String := ["fetch_playlist", "get_track_details"]

/-- An exception escaping a tool handler: either a ValueError (the uniform
failure the handlers convert internal errors to) or a SpotifyClientError
(raised directly by the not-initialized check). -/
inductive PyErr where
  | valueError (msg : String)
  | spotifyClientError (msg : String)
deriving DecidableEq

/-- One upstream Spotify API call issued by a tool handler. -/
inductive ApiCall where
  | playlistTracks (playlist_id : String)
  | tracksCall (ids : List String)
  | artistsCall (ids : List String)
  | albumsCall (ids : List String)
deriving DecidableEq

/-- Result dict of the fetch_playlist tool. -/
structure FetchPlaylistResult where
  track_uris : List String
deriving DecidableEq

/-- The uri-collection loop of fetch_playlist: keep item['track']['uri'] for
every item whose track is not None and whose uri is truthy, in order. -/
def extractTrackUris : List PlaylistItem → List String
  | [] => []
  | item :: rest =>
    match item.track with
    | some t => if t.uri ≠ "" then t.uri :: extractTrackUris rest else extractTrackUris rest
    | none => extractTrackUris rest

/-- Embedding of the fetch_playlist tool handler: not-initialized check
(raising SpotifyClientError outside any try block), identifier extraction
(SpotifyURLError re-raised as ValueError), then get_client and the
playlist_tracks call inside the try block whose except clauses re-raise
everything as ValueError. Also returns the upstream calls issued. -/
def fetch_playlist : Option SpotifyClientManager → String →
    Except PyErr FetchPlaylistResult × List ApiCall
  | none, _ => (.error (.spotifyClientError "Spotify client not initialized"), [])
  | some mgr, playlist_url_or_id =>
    match extract_playlist_id playlist_url_or_id with
    | .error (.spotifyURLError m) => (.error (.valueError m), [])
    | .ok playlist_id =>
      match get_client mgr with
      | .error m => (.error (.valueError m), [])
      | .ok api =>
        match api.playlist_tracks playlist_id with
        | .error (.clientErr m) =>
          (.error (.valueError m), [.playlistTracks playlist_id])
        | .error (.exc m) =>
          (.error (.valueError ("Failed to fetch playlist: " ++ m)),
           [.playlistTracks playlist_id])
        | .ok resp =>
          (.ok { track_uris := extractTrackUris resp.items },
           [.playlistTracks playlist_id])

/-- Enrichment data kept per artist id (the artists_data dict values). -/
structure ArtistExtra where
  image_url : Option String
  genres : List String
deriving DecidableEq

/-- Enrichment data kept per album id (the albums_data dict values). -/
structure AlbumExtra where
  label : String
  copyrights : List String
deriving DecidableEq

/-- The artist dict built per track artist: uri and name, plus the merged
artists_data entry when the id was fetched. -/
structure ArtistDetails where
  uri : String
  name : String
  extra : Option ArtistExtra
deriving DecidableEq

/-- The album dict built per track: the six always-present fields, plus the
merged albums_data entry when the id was fetched. -/
structure AlbumDetails where
  uri : String
  name : String
  album_type : String
  cover_art_url : Option String
  release_date : String
  release_date_precision : String
  extra : Option AlbumExtra
deriving DecidableEq

/-- The dict appended per non-null track by the shaping loop. -/
structure TrackSummary where
  name : String
  duration_ms : Nat
  album : AlbumDetails
  artists : List ArtistDetails
deriving DecidableEq

/-- Result dict of the get_track_details tool. -/
structure TrackDetailsResult where
  tracks : List TrackSummary
deriving DecidableEq

/-- Python set.add on an insertion-ordered id collection. -/
def addUnique (l : List String) (x : String) : List String :=
  if l.contains x then l else l ++ [x]

/-- The artist-id collection loop of get_track_details: ids of every artist
of every non-null track, de-duplicated. -/
def collectArtistIds (ts : List (Option RawTrack)) : List String :=
  ts.foldl
    (fun acc ot =>
      match ot with
      | none => acc
      | some t => t.artists.foldl (fun acc2 a => addUnique acc2 a.id) acc)
    []

/-- The album-id collection loop of get_track_details: the album id of every
non-null track with a truthy album id, de-duplicated. -/
def collectAlbumIds (ts : List (Option RawTrack)) : List String :=
  ts.foldl
    (fun acc ot =>
      match ot with
      | none => acc
      | some t => if t.album.id ≠ "" then addUnique acc t.album.id else acc)
    []

/-- The artists_data dict built from the client.artists response: null
entries skipped, image_url the first image's url when the image list is
non-empty. Built head-first so that lookup finds the latest write. -/
def buildArtistsData (l : List (Option RawArtistFull)) : List (String × ArtistExtra) :=
  l.foldl
    (fun acc oa =>
      match oa with
      | none => acc
      | some a => (a.id, ⟨(a.images.head?).map RawImage.url, a.genres⟩) :: acc)
    []

/-- The albums_data dict built from the client.albums response: null entries
skipped. Built head-first so that lookup finds the latest write. -/
def buildAlbumsData (l : List (Option RawAlbumFull)) : List (String × AlbumExtra) :=
  l.foldl
    (fun acc oa =>
      match oa with
      | none => acc
      | some a => (a.id, ⟨a.label, a.copyrights⟩) :: acc)
    []

/-- The body of the shaping loop of get_track_details for one non-null
track: first-image cover art, per-artist dicts merged with artists_data,
album dict merged with albums_data. -/
def shapeOne (artistsData : List (String × ArtistExtra))
    (albumsData : List (String × AlbumExtra)) (t : RawTrack) : TrackSummary :=
  { name := t.name
    duration_ms := t.duration_ms
    album :=
      { uri := t.album.uri
        name := t.album.name
        album_type := t.album.album_type
        cover_art_url := (t.album.images.head?).map RawImage.url
        release_date := t.album.release_date
        release_date_precision := t.album.release_date_precision
        extra := albumsData.lookup t.album.id }
    artists :=
      t.artists.map fun a =>
        { uri := a.uri, name := a.name, extra := artistsData.lookup a.id } }

/-- The shaping loop of get_track_details: null raw tracks are skipped
silently, every other track is shaped in order. -/
def shapeTracks (artistsData : List (String × ArtistExtra))
    (albumsData : List (String × AlbumExtra)) :
    List (Option RawTrack) → List TrackSummary
  | [] => []
  | none :: rest => shapeTracks artistsData albumsData rest
  | some t :: rest =>
    shapeOne artistsData albumsData t :: shapeTracks artistsData albumsData rest

/-- The for-loop validating track_ids: index of the first element that is
empty after stripping (Python: not track_id.strip()), counting from k. -/
def firstBlankFrom (k : Nat) : List String → Option Nat
  | [] => none
  | x :: xs =>
    if x.toList.all isPySpace then some k else firstBlankFrom (k + 1) xs

/-- How the except clauses of get_track_details re-raise an upstream
failure: SpotifyClientError as ValueError with the same message, any other
exception as ValueError with the generic prefix. -/
def wrapTrackDetailsErr : UpErr → PyErr
  | .clientErr m => .valueError m
  | .exc m => .valueError ("Failed to fetch track details: " ++ m)

/-- The conditional artists fetch of get_track_details: skipped when no
artist ids were collected, otherwise one client.artists call whose response
is folded into the artists_data dict. -/
def fetchArtistsStep (api : SpotifyApi) (ids : List String) :
    Except UpErr (List (String × ArtistExtra)) × List ApiCall :=
  if ids.isEmpty then (.ok [], [])
  else
    match api.artists ids with
    | .error e => (.error e, [.artistsCall ids])
    | .ok resp => (.ok (buildArtistsData resp.artists), [.artistsCall ids])

/-- The conditional albums fetch of get_track_details: skipped when no album
ids were collected, otherwise one client.albums call whose response is
folded into the albums_data dict. -/
def fetchAlbumsStep (api : SpotifyApi) (ids : List String) :
    Except UpErr (List (String × AlbumExtra)) × List ApiCall :=
  if ids.isEmpty then (.ok [], [])
  else
    match api.albums ids with
    | .error e => (.error e, [.albumsCall ids])
    | .ok resp => (.ok (buildAlbumsData resp.albums), [.albumsCall ids])

/-- Embedding of the get_track_details tool handler: not-initialized check
(raising SpotifyClientError outside any try block), the two validation
checks (empty list, first blank element) raising ValueError before any
upstream call, then get_client, the tracks call, the two conditional
enrichment fetches and the shaping loop inside the try block whose except
clauses re-raise everything as ValueError. Also returns the upstream calls
issued, in order. -/
def get_track_details : Option SpotifyClientManager → List String →
    Except PyErr TrackDetailsResult × List ApiCall
  | none, _ => (.error (.spotifyClientError "Spotify client not initialized"), [])
  | some mgr, track_ids =>
    if track_ids.isEmpty then
      (.error (.valueError "track_ids cannot be empty"), [])
    else
      match firstBlankFrom 0 track_ids with
      | some i =>
        (.error (.valueError ("track_ids[" ++ toString i ++ "] cannot be empty")), [])
      | none =>
        match get_client mgr with
        | .error m => (.error (.valueError m), [])
        | .ok api =>
          match api.tracks track_ids with
          | .error e => (.error (wrapTrackDetailsErr e), [.tracksCall track_ids])
          | .ok tracksData =>
            match fetchArtistsStep api (collectArtistIds tracksData.tracks) with
            | (.error e, c1) =>
              (.error (wrapTrackDetailsErr e), .tracksCall track_ids :: c1)
            | (.ok artistsData, c1) =>
              match fetchAlbumsStep api (collectAlbumIds tracksData.tracks) with
              | (.error e, c2) =>
                (.error (wrapTrackDetailsErr e), .tracksCall track_ids :: (c1 ++ c2))
              | (.ok albumsData, c2) =>
                (.ok { tracks := shapeTracks artistsData albumsData tracksData.tracks },
                 .tracksCall track_ids :: (c1 ++ c2))

/-- A tool-call outcome is the uniform failure shape when it either succeeds
or fails with a ValueError. -/
def okOrValueError {α : Type} : Except PyErr α → Bool
  | .ok _ => true
  | .error (.valueError _) => true
  | .error (.spotifyClientError _) => false

/-! Helper lemmas about the character-level operations. -/

theorem alnum_not_space {c : Char} (h : isAlnum c = true) : isPySpace c = false := by
  cases hx : isPySpace c
  · rfl
  · exfalso
    have hc : c ∈ pyWhitespace := of_decide_eq_true hx
    have key : ∀ x ∈ pyWhitespace, isAlnum x = false := by decide
    rw [key c hc] at h
    exact Bool.false_ne_true h

theorem dropWhile_eq_self_of_all {p : Char → Bool} {l : List Char}
    (h : ∀ c ∈ l, p c = false) : l.dropWhile p = l := by
  cases l with
  | nil => rfl
  | cons a t =>
    rw [List.dropWhile_cons, h a (List.mem_cons_self a t)]
    simp

theorem stripChars_eq_self {l : List Char}
    (h : ∀ c ∈ l, isPySpace c = false) : stripChars l = l := by
  unfold stripChars
  rw [dropWhile_eq_self_of_all h,
    dropWhile_eq_self_of_all (fun c hc => h c (List.mem_reverse.mp hc)),
    List.reverse_reverse]

theorem grab22_append {idc w : List Char} (hlen : idc.length = 22)
    (hal : idc.all isAlnum = true) : grab22 (idc ++ w) = some idc := by
  have htake : (idc ++ w).take 22 = idc := by
    rw [← hlen]
    exact List.take_left idc w
  unfold grab22
  rw [htake, hlen, hal]
  simp

theorem hitPat_self_append (lit tail : List Char) :
    hitPat lit (lit ++ tail) = grab22 tail := by
  unfold hitPat
  rw [List.isPrefixOf_iff_prefix.mpr (List.prefix_append lit tail)]
  rw [if_pos rfl, List.drop_left]

theorem searchPat_cons (lit : List Char) (c : Char) (rest : List Char) :
    searchPat lit (c :: rest) =
      match hitPat lit (c :: rest) with
      | some r => some r
      | none => searchPat lit rest := rfl

theorem searchPat_of_hit_head {lit s : List Char} {r : List Char}
    (hs : s ≠ []) (h : hitPat lit s = some r) : searchPat lit s = some r := by
  cases s with
  | nil => exact absurd rfl hs
  | cons c rest => rw [searchPat_cons, h]

theorem searchPat_short {lit : List Char} :
    ∀ {s : List Char}, s.length < lit.length → searchPat lit s = none := by
  intro s
  induction s with
  | nil => intro _; rfl
  | cons c rest ih =>
    intro hlt
    have hpre : lit.isPrefixOf (c :: rest) = false := by
      cases hx : lit.isPrefixOf (c :: rest)
      · rfl
      · have := (List.isPrefixOf_iff_prefix.mp hx).length_le
        omega
    have hhit : hitPat lit (c :: rest) = none := by
      unfold hitPat
      rw [hpre]
      simp
    rw [searchPat_cons, hhit]
    have hlt' : rest.length < lit.length := by
      simp only [List.length_cons] at hlt
      omega
    exact ih hlt'

theorem searchPat_skip {h : Char} {t : List Char} :
    ∀ {pre : List Char} {s : List Char}, (∀ c ∈ pre, ¬ c = h) →
      searchPat (h :: t) (pre ++ s) = searchPat (h :: t) s := by
  intro pre
  induction pre with
  | nil => intro s _; rfl
  | cons a pr ih =>
    intro s hall
    have hne : (h == a) = false := by
      have hx : ¬ a = h := hall a (List.mem_cons_self a pr)
      simp only [beq_eq_false_iff_ne, ne_eq]
      intro hy
      exact hx hy.symm
    have hhit : hitPat (h :: t) (a :: (pr ++ s)) = none := by
      unfold hitPat
      simp [List.isPrefixOf, hne]
    rw [List.cons_append, searchPat_cons, hhit]
    exact ih (fun c hc => hall c (List.mem_cons_of_mem a hc))

theorem dropWhile_through {p : Char → Bool} {c : Char} (hc : p c = false)
    (s : List Char) :
    ∀ u : List Char, ∃ u', u' <:+ u ∧ (u ++ c :: s).dropWhile p = u' ++ c :: s := by
  intro u
  induction u with
  | nil =>
    refine ⟨[], List.nil_suffix, ?_⟩
    rw [List.nil_append, List.dropWhile_cons, hc]
    simp
  | cons a u0 ih =>
    by_cases hpa : p a = true
    · obtain ⟨u', hsuf, heq⟩ := ih
      refine ⟨u', hsuf.trans (List.suffix_cons a u0), ?_⟩
      rw [List.cons_append, List.dropWhile_cons, hpa]
      simpa using heq
    · refine ⟨a :: u0, List.suffix_refl _, ?_⟩
      rw [List.cons_append, List.dropWhile_cons]
      simp [hpa]

theorem stripChars_decomp {v : List Char} (hv : v ≠ [])
    (hvp : ∀ x ∈ v, isPySpace x = false) (u w : List Char) :
    ∃ u' w', u' <:+ u ∧ stripChars (u ++ v ++ w) = u' ++ v ++ w' := by
  obtain ⟨c, vt, hcv⟩ := List.exists_cons_of_ne_nil hv
  subst hcv
  have hc : isPySpace c = false := hvp c (List.mem_cons_self c vt)
  obtain ⟨u1, hu1suf, h1⟩ := dropWhile_through hc (vt ++ w) u
  have hstep1 : (u ++ (c :: vt) ++ w).dropWhile isPySpace = u1 ++ (c :: vt) ++ w := by
    rw [List.append_assoc, List.cons_append]
    rw [show u1 ++ (c :: vt) ++ w = u1 ++ (c :: (vt ++ w)) by
      rw [List.append_assoc, List.cons_append]]
    exact h1
  -- now strip the tail on the reversed list
  have hvrev : (c :: vt).reverse ≠ [] := by simp
  obtain ⟨c', vt', hcv'⟩ := List.exists_cons_of_ne_nil hvrev
  have hc' : isPySpace c' = false := by
    have : c' ∈ (c :: vt).reverse := by rw [hcv']; exact List.mem_cons_self c' vt'
    exact hvp c' (List.mem_reverse.mp this)
  obtain ⟨w1, _, h2⟩ := dropWhile_through hc' (vt' ++ u1.reverse) w.reverse
  unfold stripChars
  rw [hstep1]
  have hrev : (u1 ++ (c :: vt) ++ w).reverse = w.reverse ++ (c' :: (vt' ++ u1.reverse)) := by
    rw [List.reverse_append, List.reverse_append, hcv']
    simp [List.append_assoc]
  rw [hrev, h2]
  refine ⟨u1, w1.reverse, hu1suf, ?_⟩
  have hcv2 : (c' :: vt').reverse = c :: vt := by
    rw [← hcv', List.reverse_reverse]
  calc (w1 ++ c' :: (vt' ++ u1.reverse)).reverse
      = (w1 ++ (c' :: vt') ++ u1.reverse).reverse := by simp [List.append_assoc]
    _ = u1 ++ ((c' :: vt').reverse ++ w1.reverse) := by
        simp [List.reverse_append, List.append_assoc]
    _ = u1 ++ (c :: vt) ++ w1.reverse := by rw [hcv2, List.append_assoc]

theorem searchPat_some_leftmost {lit : List Char} :
    ∀ {s r : List Char}, searchPat lit s = some r →
      ∃ i, hitPat lit (s.drop i) = some r ∧ ∀ j < i, hitPat lit (s.drop j) = none := by
  intro s
  induction s with
  | nil => intro r h; exact absurd h (by simp [searchPat])
  | cons c rest ih =>
    intro r h
    rw [searchPat_cons] at h
    cases hh : hitPat lit (c :: rest) with
    | some r' =>
      rw [hh] at h
      simp only [Option.some.injEq] at h
      subst h
      exact ⟨0, hh, by omega⟩
    | none =>
      rw [hh] at h
      obtain ⟨i, h1, h2⟩ := ih h
      refine ⟨i + 1, by rwa [List.drop_succ_cons], ?_⟩
      intro j hj
      cases j with
      | zero => exact hh
      | succ j' =>
        rw [List.drop_succ_cons]
        exact h2 j' (by omega)

theorem searchPat_complete {lit idc : List Char} (hlit : lit ≠ [])
    (hlen : idc.length = 22) (hal : idc.all isAlnum = true) :
    ∀ (u w : List Char), ∃ r, searchPat lit (u ++ (lit ++ (idc ++ w))) = some r := by
  intro u
  induction u with
  | nil =>
    intro w
    refine ⟨idc, ?_⟩
    rw [List.nil_append]
    have hne : lit ++ (idc ++ w) ≠ [] := by
      intro hx
      exact hlit (List.append_eq_nil.mp hx).1
    exact searchPat_of_hit_head hne
      (by rw [hitPat_self_append]; exact grab22_append hlen hal)
  | cons a u0 ih =>
    intro w
    obtain ⟨r0, hr0⟩ := ih w
    rw [List.cons_append, searchPat_cons]
    cases hh : hitPat lit (a :: (u0 ++ (lit ++ (idc ++ w)))) with
    | some r' => exact ⟨r', rfl⟩
    | none => exact ⟨r0, hr0⟩

/-- Helper: a Lean String is its own character list rebuilt. -/
theorem mk_toList (s : String) : String.mk s.toList = s := rfl

/-- Helper: the character list of an appended String. -/
theorem toList_append (a b : String) : (a ++ b).toList = a.toList ++ b.toList :=
  String.data_append a b

/-! Claim theorems. -/

/-- Claim C5: for every string matching the raw-ID pattern (exactly 22
characters, each in [A-Za-z0-9]), extract_playlist_id succeeds and returns
the input string unchanged. -/
theorem c5_raw_id_identity (s : String) (hlen : s.toList.length = 22)
    (hal : s.toList.all isAlnum = true) :
    extract_playlist_id s = .ok s := by
  have hne : s.toList ≠ [] := by
    intro h
    rw [h] at hlen
    simp at hlen
  have hns : ∀ c ∈ s.toList, isPySpace c = false := by
    intro c hc
    exact alnum_not_space (by
      have := List.all_eq_true.mp hal c hc
      simpa using this)
  unfold extract_playlist_id
  rw [if_neg hne, stripChars_eq_self hns]
  unfold extractCore
  rw [hlen, hal]
  simp only [Nat.reduceBEq, Bool.and_self, if_true]
  rw [mk_toList]

/-- Witness for C5 at a concrete 22-character alphanumeric id. -/
theorem c5_raw_id_identity_witness :
    extract_playlist_id "37i9dQZF1DXcBWIGoYBM5M" = .ok "37i9dQZF1DXcBWIGoYBM5M" :=
  c5_raw_id_identity "37i9dQZF1DXcBWIGoYBM5M" (by decide) (by decide)

theorem httpsLit_eq : httpsLit = 'h' :: httpsTail := rfl

theorem httpsLit_no_space : ∀ c ∈ httpsLit, isPySpace c = false := by decide

theorem uriLit_no_space : ∀ c ∈ uriLit, isPySpace c = false := by decide

theorem all_alnum_not_space {l : List Char} (hal : l.all isAlnum = true) :
    ∀ c ∈ l, isPySpace c = false := by
  intro c hc
  exact alnum_not_space (by
    have := List.all_eq_true.mp hal c hc
    simpa using this)

theorem extractCore_not_raw {original : String} {s : List Char}
    (h : (s.length == 22 && s.all isAlnum) = false) :
    extractCore original s =
      match searchPat httpsLit s with
      | some r => .ok (String.mk r)
      | none =>
        match searchPat uriLit s with
        | some r => .ok (String.mk r)
        | none => .error (.spotifyURLError (invalidFormatMsg original)) := by
  unfold extractCore
  rw [if_neg (by rw [h]; exact Bool.false_ne_true)]

/-- Claim C6: for every 22-character alphanumeric id, the valid web-URL form
with the spotify host, optionally followed by a query string, extracts to the
id regardless of the query string, and the URI-scheme form extracts to the
id as well. -/
theorem c6_url_and_uri_forms (idp q : String)
    (hlen : idp.toList.length = 22) (hal : idp.toList.all isAlnum = true)
    (_hq : q.toList = [] ∨ ∃ r, q.toList = '?' :: r) :
    extract_playlist_id ("https://open.spotify.com/playlist/" ++ idp ++ q) = .ok idp
    ∧ extract_playlist_id ("spotify:playlist:" ++ idp) = .ok idp := by
  clear _hq
  have hidns : ∀ c ∈ idp.toList, isPySpace c = false := all_alnum_not_space hal
  constructor
  · -- web-URL form
    have hlist : ("https://open.spotify.com/playlist/" ++ idp ++ q).toList
        = (httpsLit ++ idp.toList) ++ q.toList := by
      rw [toList_append, toList_append]
      rfl
    have hvne : httpsLit ++ idp.toList ≠ [] := by
      rw [httpsLit_eq]
      simp
    have hvns : ∀ x ∈ httpsLit ++ idp.toList, isPySpace x = false := by
      intro x hx
      rcases List.mem_append.mp hx with hx1 | hx2
      · exact httpsLit_no_space x hx1
      · exact hidns x hx2
    obtain ⟨u', w', hu'suf, hstrip⟩ := stripChars_decomp hvne hvns [] q.toList
    have hu' : u' = [] := List.suffix_nil.mp hu'suf
    subst hu'
    rw [List.nil_append] at hstrip
    have hne : ("https://open.spotify.com/playlist/" ++ idp ++ q).toList ≠ [] := by
      rw [hlist]
      intro hx
      exact hvne (List.append_eq_nil.mp hx).1
    unfold extract_playlist_id
    rw [if_neg hne, hlist, hstrip]
    have hrawlen : ((httpsLit ++ idp.toList) ++ w').length ≠ 22 := by
      have h34 : httpsLit.length = 34 := by decide
      simp only [List.length_append, h34, hlen]
      omega
    rw [extractCore_not_raw (by
      rw [beq_eq_false_iff_ne.mpr hrawlen, Bool.false_and])]
    have hfind : searchPat httpsLit ((httpsLit ++ idp.toList) ++ w') = some idp.toList := by
      rw [List.append_assoc]
      refine searchPat_of_hit_head ?_ ?_
      · rw [httpsLit_eq]
        simp
      · rw [hitPat_self_append]
        exact grab22_append hlen hal
    rw [hfind]
    show Except.ok (String.mk idp.toList) = Except.ok idp
    rw [mk_toList]
  · -- URI-scheme form
    have hlist : ("spotify:playlist:" ++ idp).toList = uriLit ++ idp.toList := by
      rw [toList_append]
      rfl
    have hns : ∀ c ∈ uriLit ++ idp.toList, isPySpace c = false := by
      intro x hx
      rcases List.mem_append.mp hx with hx1 | hx2
      · exact uriLit_no_space x hx1
      · exact hidns x hx2
    have hne2 : uriLit ++ idp.toList ≠ [] := by
      intro hx
      exact absurd (List.append_eq_nil.mp hx).1 (by decide)
    have hne : ("spotify:playlist:" ++ idp).toList ≠ [] := by
      rw [hlist]
      exact hne2
    unfold extract_playlist_id
    rw [if_neg hne, hlist, stripChars_eq_self hns]
    have hrawlen : (uriLit ++ idp.toList).length ≠ 22 := by
      have h17 : uriLit.length = 17 := by decide
      simp only [List.length_append, h17, hlen]
      omega
    rw [extractCore_not_raw (by
      rw [beq_eq_false_iff_ne.mpr hrawlen, Bool.false_and])]
    have hhttps : searchPat httpsLit (uriLit ++ idp.toList) = none := by
      rw [httpsLit_eq,
        searchPat_skip (show ∀ c ∈ uriLit, ¬ c = 'h' by decide)]
      refine searchPat_short ?_
      rw [hlen]
      decide
    have huri : searchPat uriLit (uriLit ++ idp.toList) = some idp.toList := by
      refine searchPat_of_hit_head hne2 ?_
      rw [hitPat_self_append]
      have := @grab22_append idp.toList [] hlen hal
      rwa [List.append_nil] at this
    rw [hhttps, huri]
    show Except.ok (String.mk idp.toList) = Except.ok idp
    rw [mk_toList]

/-- Witness for C6 at a concrete id and query string. -/
theorem c6_url_and_uri_forms_witness :
    extract_playlist_id "https://open.spotify.com/playlist/37i9dQZF1DXcBWIGoYBM5M?si=x" =
        .ok "37i9dQZF1DXcBWIGoYBM5M"
    ∧ extract_playlist_id "spotify:playlist:37i9dQZF1DXcBWIGoYBM5M" =
        .ok "37i9dQZF1DXcBWIGoYBM5M" :=
  c6_url_and_uri_forms "37i9dQZF1DXcBWIGoYBM5M" "?si=x" (by decide) (by decide)
    (Or.inr ⟨"si=x".toList, rfl⟩)

/-- Counterexample to C7 as stated: the empty string matches none of the
three supported forms, but extract_playlist_id rejects it with the
non-empty-input message, which is not the InvalidFormat message that echoes
the input and enumerates the supported formats. -/
theorem c7_counterexample :
    extract_playlist_id "" =
      .error (.spotifyURLError "playlist_url_or_id must be a non-empty string")
    ∧ "playlist_url_or_id must be a non-empty string" ≠ invalidFormatMsg "" := by
  constructor
  · rfl
  · decide

/-- Claim C7 (amended): for every non-empty input matching none of the
three supported forms, extract_playlist_id fails with a SpotifyURLError
whose message echoes the original untrimmed input and ends with the
enumeration of the supported formats; the empty string instead fails with
the distinct non-empty-input message. -/
theorem c7_invalid_format_fallthrough (s : String) (hne : s.toList ≠ [])
    (hraw : ((stripChars s.toList).length == 22
      && (stripChars s.toList).all isAlnum) = false)
    (hh : searchPat httpsLit (stripChars s.toList) = none)
    (hu : searchPat uriLit (stripChars s.toList) = none) :
    extract_playlist_id s = .error (.spotifyURLError (invalidFormatMsg s))
    ∧ (∃ a b, invalidFormatMsg s = a ++ s ++ b)
    ∧ (∃ a, invalidFormatMsg s =
        a ++ "Supported formats: HTTPS URL, Spotify URI, or raw playlist ID.") := by
  refine ⟨?_, ⟨"Invalid Spotify playlist URL or ID format: " ++ sq,
      sq ++ ". Supported formats: HTTPS URL, Spotify URI, or raw playlist ID.", ?_⟩,
    ⟨"Invalid Spotify playlist URL or ID format: " ++ sq ++ s ++ sq ++ ". ", ?_⟩⟩
  · unfold extract_playlist_id
    rw [if_neg hne, extractCore_not_raw hraw, hh, hu]
  · unfold invalidFormatMsg
    rw [String.append_assoc ("Invalid Spotify playlist URL or ID format: " ++ sq ++ s) sq
      ". Supported formats: HTTPS URL, Spotify URI, or raw playlist ID."]
  · unfold invalidFormatMsg
    rw [String.append_assoc ("Invalid Spotify playlist URL or ID format: " ++ sq ++ s ++ sq)
      ". " "Supported formats: HTTPS URL, Spotify URI, or raw playlist ID."]
    rfl

/-- Witness for the amended C7 at a concrete non-matching input. -/
theorem c7_invalid_format_fallthrough_witness :
    extract_playlist_id "not-a-playlist" =
      .error (.spotifyURLError (invalidFormatMsg "not-a-playlist"))
    ∧ (∃ a b, invalidFormatMsg "not-a-playlist" = a ++ "not-a-playlist" ++ b)
    ∧ (∃ a, invalidFormatMsg "not-a-playlist" =
        a ++ "Supported formats: HTTPS URL, Spotify URI, or raw playlist ID.") :=
  c7_invalid_format_fallthrough "not-a-playlist" (by decide) (by decide) (by decide)
    (by decide)

/-- Counterexample to C10 as stated: on an input that embeds a uri form
(first) and a web-URL form (second), extraction returns the id embedded in
the web-URL form, not the first embedded 22-character id, because the https
pattern is searched before the uri pattern. -/
theorem c10_counterexample :
    extract_playlist_id c10Mixed = .ok "bbbbbbbbbbbbbbbbbbbbbb"
    ∧ hitPat uriLit c10Mixed.toList = some "aaaaaaaaaaaaaaaaaaaaaa".toList
    ∧ ("bbbbbbbbbbbbbbbbbbbbbb" : String) ≠ "aaaaaaaaaaaaaaaaaaaaaa" :=
  ⟨rfl, rfl, by decide⟩

/-- Claim C10 (amended): the web-URL and uri patterns are matched by
unanchored substring search, so extraction succeeds on any input embedding
either form anywhere in surrounding text; but the https pattern is searched
first over the whole input, so the returned id is the capture of the
leftmost https match when one exists, and only otherwise the capture of the
leftmost uri match — not necessarily the first embedded id. -/
theorem c10_unanchored_search :
    (∀ (s : String) (u idc w : List Char),
       s.toList = u ++ httpsLit ++ idc ++ w → idc.length = 22 →
       idc.all isAlnum = true →
       ∃ r i, extract_playlist_id s = .ok (String.mk r) ∧
         hitPat httpsLit ((stripChars s.toList).drop i) = some r ∧
         ∀ j < i, hitPat httpsLit ((stripChars s.toList).drop j) = none)
    ∧
    (∀ (s : String) (u idc w : List Char),
       s.toList = u ++ uriLit ++ idc ++ w → idc.length = 22 →
       idc.all isAlnum = true →
       searchPat httpsLit (stripChars s.toList) = none →
       ∃ r i, extract_playlist_id s = .ok (String.mk r) ∧
         hitPat uriLit ((stripChars s.toList).drop i) = some r ∧
         ∀ j < i, hitPat uriLit ((stripChars s.toList).drop j) = none) := by
  constructor
  · intro s u idc w hdec hlen hal
    have hdec' : s.toList = (u ++ (httpsLit ++ idc)) ++ w := by
      rw [hdec]
      simp [List.append_assoc]
    have hvne : httpsLit ++ idc ≠ [] := by
      rw [httpsLit_eq]
      simp
    have hvns : ∀ x ∈ httpsLit ++ idc, isPySpace x = false := by
      intro x hx
      rcases List.mem_append.mp hx with hx1 | hx2
      · exact httpsLit_no_space x hx1
      · exact all_alnum_not_space hal x hx2
    have hne : s.toList ≠ [] := by
      rw [hdec']
      intro hx
      exact hvne (List.append_eq_nil.mp (List.append_eq_nil.mp hx).1).2
    obtain ⟨u', w', _, hstrip⟩ := stripChars_decomp hvne hvns u w
    have hstrip' : stripChars s.toList = (u' ++ (httpsLit ++ idc)) ++ w' := by
      rw [hdec']
      exact hstrip
    have hassoc : (u' ++ (httpsLit ++ idc)) ++ w' = u' ++ (httpsLit ++ (idc ++ w')) := by
      simp [List.append_assoc]
    have hrawlen : ((u' ++ (httpsLit ++ idc)) ++ w').length ≠ 22 := by
      have h34 : httpsLit.length = 34 := by decide
      simp only [List.length_append, h34, hlen]
      omega
    have hcond : (((u' ++ (httpsLit ++ idc)) ++ w').length == 22
        && ((u' ++ (httpsLit ++ idc)) ++ w').all isAlnum) = false := by
      rw [beq_eq_false_iff_ne.mpr hrawlen, Bool.false_and]
    obtain ⟨r, hr⟩ := @searchPat_complete httpsLit idc (by decide) hlen hal u' w'
    obtain ⟨i, hi1, hi2⟩ := searchPat_some_leftmost hr
    refine ⟨r, i, ?_, ?_, ?_⟩
    · unfold extract_playlist_id
      rw [if_neg hne, hstrip', extractCore_not_raw hcond, hassoc, hr]
    · rw [hstrip', hassoc]
      exact hi1
    · intro j hj
      rw [hstrip', hassoc]
      exact hi2 j hj
  · intro s u idc w hdec hlen hal hnohttps
    have hdec' : s.toList = (u ++ (uriLit ++ idc)) ++ w := by
      rw [hdec]
      simp [List.append_assoc]
    have hvne : uriLit ++ idc ≠ [] := by
      intro hx
      exact absurd (List.append_eq_nil.mp hx).1 (by decide)
    have hvns : ∀ x ∈ uriLit ++ idc, isPySpace x = false := by
      intro x hx
      rcases List.mem_append.mp hx with hx1 | hx2
      · exact uriLit_no_space x hx1
      · exact all_alnum_not_space hal x hx2
    have hne : s.toList ≠ [] := by
      rw [hdec']
      intro hx
      exact hvne (List.append_eq_nil.mp (List.append_eq_nil.mp hx).1).2
    obtain ⟨u', w', _, hstrip⟩ := stripChars_decomp hvne hvns u w
    have hstrip' : stripChars s.toList = (u' ++ (uriLit ++ idc)) ++ w' := by
      rw [hdec']
      exact hstrip
    have hassoc : (u' ++ (uriLit ++ idc)) ++ w' = u' ++ (uriLit ++ (idc ++ w')) := by
      simp [List.append_assoc]
    have hrawlen : ((u' ++ (uriLit ++ idc)) ++ w').length ≠ 22 := by
      have h17 : uriLit.length = 17 := by decide
      simp only [List.length_append, h17, hlen]
      omega
    have hcond : (((u' ++ (uriLit ++ idc)) ++ w').length == 22
        && ((u' ++ (uriLit ++ idc)) ++ w').all isAlnum) = false := by
      rw [beq_eq_false_iff_ne.mpr hrawlen, Bool.false_and]
    rw [hstrip', hassoc] at hnohttps
    obtain ⟨r, hr⟩ := @searchPat_complete uriLit idc (by decide) hlen hal u' w'
    obtain ⟨i, hi1, hi2⟩ := searchPat_some_leftmost hr
    refine ⟨r, i, ?_, ?_, ?_⟩
    · unfold extract_playlist_id
      rw [if_neg hne, hstrip', extractCore_not_raw hcond, hassoc, hnohttps, hr]
    · rw [hstrip', hassoc]
      exact hi1
    · intro j hj
      rw [hstrip', hassoc]
      exact hi2 j hj

/-- Witness for the amended C10: an https form embedded mid-text, and a uri
form embedded mid-text with no https occurrence. -/
theorem c10_unanchored_search_witness :
    (∃ r i,
      extract_playlist_id "see https://open.spotify.com/playlist/cccccccccccccccccccccc now" =
        .ok (String.mk r) ∧
      hitPat httpsLit ((stripChars
        ("see https://open.spotify.com/playlist/cccccccccccccccccccccc now").toList).drop i) =
        some r ∧
      ∀ j < i, hitPat httpsLit ((stripChars
        ("see https://open.spotify.com/playlist/cccccccccccccccccccccc now").toList).drop j) =
        none)
    ∧
    (∃ r i,
      extract_playlist_id "see spotify:playlist:dddddddddddddddddddddd now" =
        .ok (String.mk r) ∧
      hitPat uriLit ((stripChars
        ("see spotify:playlist:dddddddddddddddddddddd now").toList).drop i) = some r ∧
      ∀ j < i, hitPat uriLit ((stripChars
        ("see spotify:playlist:dddddddddddddddddddddd now").toList).drop j) = none) :=
  ⟨c10_unanchored_search.1
      "see https://open.spotify.com/playlist/cccccccccccccccccccccc now"
      "see ".toList "cccccccccccccccccccccc".toList " now".toList
      (by decide) (by decide) (by decide),
   c10_unanchored_search.2
      "see spotify:playlist:dddddddddddddddddddddd now"
      "see ".toList "dddddddddddddddddddddd".toList " now".toList
      (by decide) (by decide) (by decide) (by decide)⟩

/-- Counterexample to C1 as stated: the dispatch layer does not expose four
operations; no get_artist_details or get_album_details tool is registered. -/
theorem c1_counterexample :
    mcpToolNames.length ≠ 4
    ∧ "get_artist_details" ∉ mcpToolNames
    ∧ "get_album_details" ∉ mcpToolNames := by
  refine ⟨by decide, by decide, by decide⟩

/-- Claim C1 (amended): the tool dispatch layer exposes exactly two
externally invokable operations, fetch_playlist and get_track_details, in
that order; the artist- and album-detail operations are absent. -/
theorem c1_exactly_two_tools :
    mcpToolNames = ["fetch_playlist", "get_track_details"]
    ∧ mcpToolNames.length = 2 :=
  ⟨rfl, rfl⟩

/-- Counterexample to C2 as stated: on the not-initialized failure both tool
handlers raise SpotifyClientError itself, not the uniform ValueError, so an
internal exception type crosses the tool boundary unwrapped. -/
theorem c2_counterexample :
    (fetch_playlist none "anything").1 =
      .error (.spotifyClientError "Spotify client not initialized")
    ∧ (get_track_details none ["x"]).1 =
      .error (.spotifyClientError "Spotify client not initialized")
    ∧ okOrValueError (fetch_playlist none "anything").1 = false :=
  ⟨rfl, rfl, rfl⟩

/-- Claim C2 (amended): once the manager is initialized, every failure of
either tool handler — identifier extraction failure, missing session handle,
or any upstream error — is converted to the uniform ValueError result; only
the not-initialized check raises SpotifyClientError unwrapped. -/
theorem c2_uniform_failure_when_initialized (m : SpotifyClientManager)
    (req : String) (ids : List String) :
    okOrValueError (fetch_playlist (some m) req).1 = true
    ∧ okOrValueError (get_track_details (some m) ids).1 = true := by
  constructor
  · cases hx : extract_playlist_id req with
    | error e =>
      cases e with
      | spotifyURLError msg => simp [fetch_playlist, okOrValueError, hx]
    | ok pid =>
      cases hc : get_client m with
      | error msg => simp [fetch_playlist, okOrValueError, hx, hc]
      | ok api =>
        cases hp : api.playlist_tracks pid with
        | error e =>
          cases e with
          | clientErr msg => simp [fetch_playlist, okOrValueError, hx, hc, hp]
          | exc msg => simp [fetch_playlist, okOrValueError, hx, hc, hp]
        | ok resp => simp [fetch_playlist, okOrValueError, hx, hc, hp]
  · cases hemp : ids.isEmpty with
    | true => simp [get_track_details, okOrValueError, hemp]
    | false =>
      cases hfb : firstBlankFrom 0 ids with
      | some i => simp [get_track_details, okOrValueError, hemp, hfb]
      | none =>
        cases hc : get_client m with
        | error msg => simp [get_track_details, okOrValueError, hemp, hfb, hc]
        | ok api =>
          cases ht : api.tracks ids with
          | error e =>
            cases e with
            | clientErr msg =>
              simp [get_track_details, okOrValueError, wrapTrackDetailsErr, hemp, hfb, hc, ht]
            | exc msg =>
              simp [get_track_details, okOrValueError, wrapTrackDetailsErr, hemp, hfb, hc, ht]
          | ok td =>
            cases hfa : fetchArtistsStep api (collectArtistIds td.tracks) with
            | mk ra c1 =>
              cases ra with
              | error e =>
                cases e with
                | clientErr msg =>
                  simp [get_track_details, okOrValueError, wrapTrackDetailsErr,
                    hemp, hfb, hc, ht, hfa]
                | exc msg =>
                  simp [get_track_details, okOrValueError, wrapTrackDetailsErr,
                    hemp, hfb, hc, ht, hfa]
              | ok ad =>
                cases hfb2 : fetchAlbumsStep api (collectAlbumIds td.tracks) with
                | mk rb c2 =>
                  cases rb with
                  | error e =>
                    cases e with
                    | clientErr msg =>
                      simp [get_track_details, okOrValueError, wrapTrackDetailsErr,
                        hemp, hfb, hc, ht, hfa, hfb2]
                    | exc msg =>
                      simp [get_track_details, okOrValueError, wrapTrackDetailsErr,
                        hemp, hfb, hc, ht, hfa, hfb2]
                  | ok bd =>
                    simp [get_track_details, okOrValueError, hemp, hfb, hc, ht, hfa, hfb2]

theorem firstBlankFrom_spec :
    ∀ (l : List String) (i : Nat) (t : String) (k : Nat),
      l[i]? = some t → t.toList.all isPySpace = true →
      (∀ j s', j < i → l[j]? = some s' → s'.toList.all isPySpace = false) →
      firstBlankFrom k l = some (k + i) := by
  intro l
  induction l with
  | nil =>
    intro i t k h1 _ _
    simp at h1
  | cons x xs ih =>
    intro i t k h1 h2 h3
    cases i with
    | zero =>
      rw [List.getElem?_cons_zero] at h1
      have hx : x = t := by
        simpa using h1
      subst hx
      unfold firstBlankFrom
      rw [h2]
      simp
    | succ i' =>
      have hx0 : x.toList.all isPySpace = false :=
        h3 0 x (Nat.succ_pos i') List.getElem?_cons_zero
      unfold firstBlankFrom
      rw [hx0]
      simp only [Bool.false_eq_true, if_false]
      rw [List.getElem?_cons_succ] at h1
      have := ih i' t (k + 1) h1 h2 (fun j s' hj hjs =>
        h3 (j + 1) s' (by omega) (by rwa [List.getElem?_cons_succ]))
      rw [this]
      congr 1
      omega

/-- Claim C3: with an initialized session, get_track_details on an empty id
list fails with the empty-list ValueError before any upstream call; and on a
list whose first blank-after-strip element sits at index i, it fails with
the ValueError naming index i, again with no upstream call issued. -/
theorem c3_validation_before_upstream (m : SpotifyClientManager) :
    get_track_details (some m) [] = (.error (.valueError "track_ids cannot be empty"), [])
    ∧ ∀ (ids : List String) (i : Nat) (t : String),
        ids[i]? = some t → t.toList.all isPySpace = true →
        (∀ j s', j < i → ids[j]? = some s' → s'.toList.all isPySpace = false) →
        get_track_details (some m) ids =
          (.error (.valueError ("track_ids[" ++ toString i ++ "] cannot be empty")), []) := by
  constructor
  · rfl
  · intro ids i t h1 h2 h3
    have hfb : firstBlankFrom 0 ids = some i := by
      have := firstBlankFrom_spec ids i t 0 h1 h2 h3
      rwa [Nat.zero_add] at this
    have hne : ids.isEmpty = false := by
      cases ids with
      | nil => simp at h1
      | cons a l => rfl
    simp [get_track_details, hne, hfb]

/-- Witness for C3: the empty list and the list with a blank element at
index 1, on a concrete manager. -/
theorem c3_validation_before_upstream_witness :
    get_track_details (some ⟨"cid", "csecret", none⟩) [] =
      (.error (.valueError "track_ids cannot be empty"), [])
    ∧ get_track_details (some ⟨"cid", "csecret", none⟩) ["id1", "  "] =
      (.error (.valueError "track_ids[1] cannot be empty"), []) := by
  constructor
  · exact (c3_validation_before_upstream ⟨"cid", "csecret", none⟩).1
  · exact (c3_validation_before_upstream ⟨"cid", "csecret", none⟩).2
      ["id1", "  "] 1 "  " rfl (by decide)
      (by
        intro j s' hj hjs
        have hj0 : j = 0 := by omega
        subst hj0
        rw [List.getElem?_cons_zero] at hjs
        have : s' = "id1" := by simpa using hjs.symm
        subst this
        decide)

/-- Claim C4: authenticate never raises (it is total over every attempt
outcome, returning a Bool) and clears the session handle on any failure, so
after a failed authenticate — including a second failed authenticate —
get_client fails with the not-authenticated SpotifyClientError. -/
theorem c4_failed_auth_locks_client (m : SpotifyClientManager) (att : AuthAttempt)
    (hfail : (authenticate m att).1 = false) :
    (authenticate m att).2.spotify_client = none
    ∧ get_client (authenticate m att).2 = .error notAuthMsg
    ∧ ∀ att2, (authenticate (authenticate m att).2 att2).1 = false →
        get_client (authenticate (authenticate m att).2 att2).2 = .error notAuthMsg := by
  have step : ∀ (m' : SpotifyClientManager) (a : AuthAttempt),
      (authenticate m' a).1 = false →
      (authenticate m' a).2.spotify_client = none
      ∧ get_client (authenticate m' a).2 = .error notAuthMsg := by
    intro m' a hf
    cases a with
    | success api => simp [authenticate] at hf
    | sdkError msg => exact ⟨rfl, rfl⟩
    | unexpected msg => exact ⟨rfl, rfl⟩
  obtain ⟨h1, h2⟩ := step m att hfail
  exact ⟨h1, h2, fun att2 h2f => (step _ att2 h2f).2⟩

/-- Witness for C4: a failed sdk-error attempt, then a second failed
attempt, on a concrete manager. -/
theorem c4_failed_auth_locks_client_witness :
    (authenticate ⟨"cid", "csecret", none⟩ (.sdkError "boom")).1 = false
    ∧ get_client (authenticate ⟨"cid", "csecret", none⟩ (.sdkError "boom")).2 =
        .error notAuthMsg
    ∧ get_client (authenticate
        (authenticate ⟨"cid", "csecret", none⟩ (.sdkError "boom")).2
        (.unexpected "again")).2 = .error notAuthMsg := by
  refine ⟨rfl, ?_, ?_⟩
  · exact (c4_failed_auth_locks_client ⟨"cid", "csecret", none⟩ (.sdkError "boom") rfl).2.1
  · exact (c4_failed_auth_locks_client ⟨"cid", "csecret", none⟩ (.sdkError "boom") rfl).2.2
      (.unexpected "again") rfl

/-- Claim C8: the shaping loop skips null raw-track entries silently — the
output has exactly one summary per non-null input entry, and in particular a
raw list of one null and one valid entry yields exactly one summary. -/
theorem c8_null_tracks_skipped (ad : List (String × ArtistExtra))
    (bd : List (String × AlbumExtra)) (l : List (Option RawTrack)) :
    (shapeTracks ad bd l).length = (l.filterMap id).length
    ∧ ∀ t : RawTrack, (shapeTracks ad bd [none, some t]).length = 1 := by
  constructor
  · induction l with
    | nil => rfl
    | cons ot rest ih =>
      cases ot with
      | none => simpa [shapeTracks, List.filterMap_cons] using ih
      | some t => simpa [shapeTracks, List.filterMap_cons] using ih
  · intro t
    rfl

/-- Claim C9: playlist-uri extraction skips items with a null track
reference or an empty uri and keeps the remaining uris in their original
order, and the shaping loop maps the non-null raw tracks one-to-one in
order (no reordering, no duplication); both operations therefore walk the
same ordered base list of non-null tracks, so re-extracting the uri
sequence of a shaped playlist-track list gives exactly the directly
extracted sequence. -/
theorem c9_shape_extract_round_trip (ad : List (String × ArtistExtra))
    (bd : List (String × AlbumExtra)) (items : List PlaylistItem) :
    shapeTracks ad bd (items.map PlaylistItem.track)
      = ((items.map PlaylistItem.track).filterMap id).map (shapeOne ad bd)
    ∧ extractTrackUris items
      = ((items.map PlaylistItem.track).filterMap id).filterMap
          (fun t => if t.uri = "" then none else some t.uri) := by
  constructor
  · induction items with
    | nil => rfl
    | cons it rest ih =>
      cases hit : it.track with
      | none => simp [List.map_cons, hit, shapeTracks, List.filterMap_cons, ih]
      | some t => simp [List.map_cons, hit, shapeTracks, List.filterMap_cons, ih]
  · induction items with
    | nil => rfl
    | cons it rest ih =>
      cases hit : it.track with
      | none => simp [extractTrackUris, hit, List.map_cons, List.filterMap_cons, ih]
      | some t =>
        by_cases hu : t.uri = ""
        · simp [extractTrackUris, hit, hu, List.map_cons, List.filterMap_cons, ih]
        · simp [extractTrackUris, hit, hu, List.map_cons, List.filterMap_cons, ih]

end PlaylistLibrarian
